import Mathlib

/-!
# Verification of the file-storage authorization core

Shallow embedding of the repository's authorization/visibility decision
engine: the SQLAlchemy models (`models.py`), the CRUD layer (`crud.py`),
the dependency predicates (`dependencies.py`), the configuration object
(`config.py`) and the routers (`routers/files.py`, `routers/users.py`).

The database session is modelled as an explicit value of type `Db` holding
the rows of the `users` and `files` tables; an HTTP 4xx/5xx outcome raised
by `HTTPException` (or an unhandled Python exception) is modelled as
`Except.error` carrying an `AuthError`; a successful response is
`Except.ok`.  The authenticated actor (resolved by `auth.get_current_user`,
an external collaborator per the spec) is threaded as an explicit `User`
argument.  FastAPI resolves a route's dependencies before the endpoint
body runs, so endpoint models evaluate their dependency checks first, in
declaration order.
-/

set_option autoImplicit false

/-- `models.UserRole`: three-valued string enum. -/
inductive UserRole
  | USER
  | MANAGER
  | ADMIN
deriving DecidableEq

/-- `models.FileVisibility`: three-valued string enum. -/
inductive FileVisibility
  | PRIVATE
  | DEPARTMENT
  | PUBLIC
deriving DecidableEq

/-- A row of the `users` table (`models.User`). -/
structure User where
  id : Nat
  username : String
  password_hash : String
  role : UserRole
  department_id : Nat
deriving DecidableEq

/-- A row of the `files` table (`models.File`).  `created_at` is the
server-side timestamp (an abstract instant, modelled as `Nat`). -/
structure File where
  id : Nat
  owner_id : Nat
  department_id : Nat
  visibility : FileVisibility
  file_path : String
  filename : String
  size : Nat
  created_at : Nat
  downloads_count : Nat
deriving DecidableEq

/-- The database state: the rows of the two tables the claims touch, plus
the autoincrement counters for their integer primary keys. -/
structure Db where
  users : List User
  files : List File
  next_user_id : Nat
  next_file_id : Nat
deriving DecidableEq

/-- `schemas.UserCreate`: payload of `POST /users/`. -/
structure UserCreate where
  username : String
  role : UserRole
  department_id : Nat
  password : String
deriving DecidableEq

/-- The `fastapi.UploadFile` attributes read by `upload_file`:
`filename`, `size` (optional in multipart metadata), and the uploaded
bytes (only their length reaches the database record). -/
structure UploadFileIn where
  filename : String
  size : Option Nat
  content_len : Nat
deriving DecidableEq

/-- Outcome of a request that does not end in a 2xx response: the
`HTTPException`s raised by the embedded code, plus the two unhandled
Python exceptions the routers can hit. -/
inductive AuthError
  /-- 404 "File not found" / "User not found". -/
  | notFound
  /-- 403 "Access denied to this file" / "USER role can only create PRIVATE files". -/
  | forbiddenVisibility
  /-- 403 "Can only delete files from your department" / "Can only view users from your department" / "Can only update users from your department". -/
  | forbiddenDepartment
  /-- 403 "Can only delete your own files". -/
  | forbiddenOwnership
  /-- 403 "Role {required_role} or higher required". -/
  | forbiddenRoleFloor
  /-- 403 "MANAGER role can only change users to USER role" / "MANAGER role can only create USER role users". -/
  | forbiddenRoleCeiling
  /-- 400 "Username already exists". -/
  | badRequestDuplicateUsername
  /-- 400 "File type ... not allowed for ... role". -/
  | badRequestFileType
  /-- 413 "File size exceeds maximum allowed size for your role". -/
  | requestEntityTooLarge
  /-- 500 "Failed to update user role". -/
  | internalServerError
  /-- Unhandled Python `NameError` (undefined name at call time). -/
  | nameError
  /-- Unhandled Python `AttributeError` (missing attribute on an object). -/
  | attributeError
deriving DecidableEq

/-- `config.Settings`: exactly the attributes the class defines (with the
default values used when no environment override is present).  Note there
is no `ALLOWED_FILE_TYPES_MANAGER` and no `ALLOWED_FILE_TYPES_ADMIN`
attribute. -/
structure Settings where
  SECRET_KEY : String
  ALGORITHM : String
  ACCESS_TOKEN_EXPIRE_MINUTES : Nat
  DATABASE_URL : String
  UPLOAD_DIR : String
  MAX_FILE_SIZE_USER : Nat
  MAX_FILE_SIZE_MANAGER : Nat
  MAX_FILE_SIZE_ADMIN : Nat
  ALLOWED_FILE_TYPES_USER : List String
deriving DecidableEq

/-- `config.settings`, the module-level singleton, with its defaults. -/
def settings : Settings where
  SECRET_KEY := "your-secret-key-here-change-in-production"
  ALGORITHM := "HS256"
  ACCESS_TOKEN_EXPIRE_MINUTES := 30
  DATABASE_URL := "sqlite:///:memory:"
  UPLOAD_DIR := "/app/uploads"
  MAX_FILE_SIZE_USER := 10 * 1024 * 1024
  MAX_FILE_SIZE_MANAGER := 50 * 1024 * 1024
  MAX_FILE_SIZE_ADMIN := 100 * 1024 * 1024
  ALLOWED_FILE_TYPES_USER := [".pdf"]

/-- Python `getattr(s, name)` for the allowed-file-type attributes of
`Settings`: only `ALLOWED_FILE_TYPES_USER` is defined by the class, so
every other name misses (an `AttributeError` in Python). -/
def Settings.allowed_file_types_attr (s : Settings) : String → Option (List String)
  | "ALLOWED_FILE_TYPES_USER" => some s.ALLOWED_FILE_TYPES_USER
  | _ => none

/-- Modelled from the spec: `auth.get_password_hash` (src/auth.py is not
under src/); the spec treats credential hashing as an external
collaborator that the core never inspects, so it is modelled as an
abstract tagging of the password. -/
def get_password_hash (password : String) : String :=
  "bcrypt$" ++ password

/-- Replace the first element satisfying `p` by its image under `g`
(SQLAlchemy identity-map mutation of the object returned by
`.filter(...).first()`). -/
def updateFirst {α : Type} (p : α → Bool) (g : α → α) : List α → List α
  | [] => []
  | x :: xs => if p x then g x :: xs else x :: updateFirst p g xs

/-- `crud.get_user_by_username`. -/
def get_user_by_username (db : Db) (username : String) : Option User :=
  db.users.find? (fun u => decide (u.username = username))

/-- `crud.get_user_by_id`. -/
def get_user_by_id (db : Db) (user_id : Nat) : Option User :=
  db.users.find? (fun u => decide (u.id = user_id))

/-- `crud.get_users_by_department`. -/
def get_users_by_department (db : Db) (department_id : Nat) : List User :=
  db.users.filter (fun u => decide (u.department_id = department_id))

/-- `crud.get_all_users`. -/
def get_all_users (db : Db) : List User :=
  db.users

/-- `crud.create_user`: inserts a new row built from the payload; the
primary key comes from the table's autoincrement counter. -/
def create_user (db : Db) (user : UserCreate) : User × Db :=
  let db_user : User :=
    { id := db.next_user_id
      username := user.username
      password_hash := get_password_hash user.password
      role := user.role
      department_id := user.department_id }
  (db_user, { db with users := db.users ++ [db_user],
                      next_user_id := db.next_user_id + 1 })

/-- `crud.update_user_role`: finds the row by id, mutates its `role` in
place, and returns the (updated) row, or `none` when absent. -/
def update_user_role (db : Db) (user_id : Nat) (new_role : UserRole) :
    Option User × Db :=
  match db.users.find? (fun u => decide (u.id = user_id)) with
  | none => (none, db)
  | some u =>
    let users := updateFirst (fun v => decide (v.id = user_id))
      (fun v => { v with role := new_role }) db.users
    (some { u with role := new_role }, { db with users := users })

/-- `crud.get_file_by_id`. -/
def get_file_by_id (db : Db) (file_id : Nat) : Option File :=
  db.files.find? (fun f => decide (f.id = file_id))

/-- `crud.create_file`: inserts a new `files` row; `id` comes from the
autoincrement counter, `downloads_count` from its column default `0`, and
`created_at` from the database clock (`func.now()`), passed in as `now`. -/
def create_file (db : Db) (visibility : FileVisibility) (owner_id : Nat)
    (department_id : Nat) (file_path : String) (filename : String)
    (size : Nat) (now : Nat) : File × Db :=
  let db_file : File :=
    { id := db.next_file_id
      owner_id := owner_id
      department_id := department_id
      visibility := visibility
      file_path := file_path
      filename := filename
      size := size
      created_at := now
      downloads_count := 0 }
  (db_file, { db with files := db.files ++ [db_file],
                      next_file_id := db.next_file_id + 1 })

/-- `crud.get_accessible_files`: the bulk listing query.  ADMIN and
MANAGER get the whole table; otherwise the SQL filter
`or_(PUBLIC, and_(DEPARTMENT, same department), and_(PRIVATE, own))`
is applied. -/
def get_accessible_files (db : Db) (current_user : User) : List File :=
  if current_user.role = UserRole.ADMIN then
    db.files
  else if current_user.role = UserRole.MANAGER then
    db.files
  else
    db.files.filter (fun f =>
      decide (f.visibility = FileVisibility.PUBLIC) ||
      (decide (f.visibility = FileVisibility.DEPARTMENT) &&
        decide (f.department_id = current_user.department_id)) ||
      (decide (f.visibility = FileVisibility.PRIVATE) &&
        decide (f.owner_id = current_user.id)))

/-- `crud.increment_download_count`: finds the row by id, increments its
`downloads_count` in place and returns `True`; returns `False` when no
such row exists. -/
def increment_download_count (db : Db) (file_id : Nat) : Bool × Db :=
  match db.files.find? (fun f => decide (f.id = file_id)) with
  | none => (false, db)
  | some _ =>
    let files := updateFirst (fun f => decide (f.id = file_id))
      (fun f => { f with downloads_count := f.downloads_count + 1 }) db.files
    (true, { db with files := files })

/-- The role lookup table inside `dependencies.require_role_or_higher`
(a Python dict, hence an optional lookup). -/
def role_hierarchy : UserRole → Option Nat
  | UserRole.USER => some 1
  | UserRole.MANAGER => some 2
  | UserRole.ADMIN => some 3

/-- `dependencies.require_role_or_higher`: the FastAPI dependency that
rejects actors below the required role (`dict.get(..., 0)` on both
sides). -/
def require_role_or_higher (required_role : UserRole) (current_user : User) :
    Except AuthError User :=
  if (role_hierarchy current_user.role).getD 0 <
      (role_hierarchy required_role).getD 0 then
    Except.error AuthError.forbiddenRoleFloor
  else
    Except.ok current_user

/-- The role/visibility decision of `dependencies.can_access_file` after
the row has been fetched (the body below the not-found check). -/
def file_access_decision (current_user : User) (file : File) :
    Except AuthError File :=
  if current_user.role = UserRole.ADMIN then
    Except.ok file
  else if current_user.role = UserRole.MANAGER then
    Except.ok file
  else if current_user.role = UserRole.USER then
    if file.visibility = FileVisibility.PUBLIC then
      Except.ok file
    else if file.visibility = FileVisibility.DEPARTMENT ∧
        file.department_id = current_user.department_id then
      Except.ok file
    else if file.visibility = FileVisibility.PRIVATE ∧
        file.owner_id = current_user.id then
      Except.ok file
    else
      Except.error AuthError.forbiddenVisibility
  else
    Except.ok file

/-- `dependencies.can_access_file`: fetch the file, 404 when absent, then
decide by role and visibility. -/
def can_access_file (db : Db) (current_user : User) (file_id : Nat) :
    Except AuthError File :=
  match get_file_by_id db file_id with
  | none => Except.error AuthError.notFound
  | some file => file_access_decision current_user file

/-- `dependencies.can_delete_file`: fetch the file, 404 when absent; ADMIN
deletes anything, MANAGER only own-department files, USER only own
files. -/
def can_delete_file (db : Db) (current_user : User) (file_id : Nat) :
    Except AuthError File :=
  match get_file_by_id db file_id with
  | none => Except.error AuthError.notFound
  | some file =>
    if current_user.role = UserRole.ADMIN then
      Except.ok file
    else if current_user.role = UserRole.MANAGER then
      if file.department_id = current_user.department_id then
        Except.ok file
      else
        Except.error AuthError.forbiddenDepartment
    else if current_user.role = UserRole.USER then
      if file.owner_id = current_user.id then
        Except.ok file
      else
        Except.error AuthError.forbiddenOwnership
    else
      Except.ok file

/-- Index of the last occurrence of `c` in the character list, or `-1`
when absent (Python `str.rfind`). -/
def rfindChar (c : Char) : List Char → Int
  | [] => -1
  | x :: xs =>
    let r := rfindChar c xs
    if r ≥ 0 then r + 1 else if x = c then 0 else -1

/-- The extension component of `os.path.splitext` (posixpath): the suffix
from the last dot, provided that dot lies after the last path separator
and some character strictly between them is not a dot (so ".bashrc" has
no extension). -/
def splitext_ext (p : String) : String :=
  let cs := p.toList
  let sepIndex := rfindChar '/' cs
  let dotIndex := rfindChar '.' cs
  if dotIndex > sepIndex ∧
      cs.enum.any (fun q =>
        decide (sepIndex + 1 ≤ (q.1 : Int) ∧ (q.1 : Int) < dotIndex ∧
          q.2 ≠ '.')) then
    String.mk (cs.drop dotIndex.toNat)
  else
    ""

/-- `os.path.join` for the one call site in `upload_file` (posixpath). -/
def path_join (a b : String) : String :=
  if b.startsWith ("/") then b
  else if a = "" ∨ a.endsWith ("/") then a ++ b
  else a ++ "/" ++ b

/-- The per-role maximum upload size selected at the top of
`routers.files.upload_file`. -/
def max_size_for_role (s : Settings) (role : UserRole) : Nat :=
  if role = UserRole.MANAGER then s.MAX_FILE_SIZE_MANAGER
  else if role = UserRole.ADMIN then s.MAX_FILE_SIZE_ADMIN
  else s.MAX_FILE_SIZE_USER

/-- The size gate of `upload_file`: Python evaluates
`if file.size and file.size > max_size`, so a missing (or zero, hence
falsy) size skips the check. -/
def upload_size_rejected (s : Settings) (role : UserRole)
    (size : Option Nat) : Bool :=
  match size with
  | none => false
  | some n => decide (n ≠ 0) && decide (max_size_for_role s role < n)

/-- The per-role extension gate of `upload_file`.  Each branch reads the
role's `ALLOWED_FILE_TYPES_*` attribute of `settings`; the MANAGER and
ADMIN attributes do not exist on `Settings`, which in Python raises an
`AttributeError` before the membership test. -/
def upload_type_check (s : Settings) (role : UserRole) (ext : String) :
    Except AuthError Unit :=
  if role = UserRole.USER then
    match s.allowed_file_types_attr ("ALLOWED_FILE_TYPES_USER") with
    | none => Except.error AuthError.attributeError
    | some allowed =>
      if allowed.contains ext then Except.ok () else
        Except.error AuthError.badRequestFileType
  else if role = UserRole.MANAGER then
    match s.allowed_file_types_attr ("ALLOWED_FILE_TYPES_MANAGER") with
    | none => Except.error AuthError.attributeError
    | some allowed =>
      if allowed.contains ext then Except.ok () else
        Except.error AuthError.badRequestFileType
  else if role = UserRole.ADMIN then
    match s.allowed_file_types_attr ("ALLOWED_FILE_TYPES_ADMIN") with
    | none => Except.error AuthError.attributeError
    | some allowed =>
      if allowed.contains ext then Except.ok () else
        Except.error AuthError.badRequestFileType
  else
    Except.ok ()

/-- The visibility restriction of `upload_file` (routers/files.py lines
68-73): only the USER role is restricted, to PRIVATE. -/
def upload_visibility_check (current_user : User)
    (visibility : FileVisibility) : Except AuthError Unit :=
  if current_user.role = UserRole.USER ∧
      visibility ≠ FileVisibility.PRIVATE then
    Except.error AuthError.forbiddenVisibility
  else
    Except.ok ()

/-- `routers.files.upload_file` (`POST /files/upload`): size gate, then
extension gate, then visibility gate, then disk write (external byte
storage, assumed successful per the spec) and record insertion.  `uuid`
is the generated `uuid.uuid4()` value and `now` the database clock, both
external inputs. -/
def upload_file (db : Db) (current_user : User) (file : UploadFileIn)
    (visibility : FileVisibility) (uuid : String) (now : Nat) :
    Except AuthError File × Db :=
  if upload_size_rejected settings current_user.role file.size then
    (Except.error AuthError.requestEntityTooLarge, db)
  else
    match upload_type_check settings current_user.role
        ((splitext_ext file.filename).toLower) with
    | Except.error e => (Except.error e, db)
    | Except.ok _ =>
      match upload_visibility_check current_user visibility with
      | Except.error e => (Except.error e, db)
      | Except.ok _ =>
        let unique_filename := uuid ++ splitext_ext file.filename
        let file_path := path_join settings.UPLOAD_DIR unique_filename
        let r := create_file db visibility current_user.id
          current_user.department_id file_path file.filename
          file.content_len now
        (Except.ok r.1, r.2)

/-- `routers.files.get_file_info` (`GET /files/{file_id}`): the response
is the file resolved by the `can_access_file` dependency. -/
def get_file_info (db : Db) (current_user : User) (file_id : Nat) :
    Except AuthError File :=
  can_access_file db current_user file_id

/-- `routers.files.download_file` (`GET /files/{file_id}/download`): the
`can_access_file` dependency gates the request; on success the download
counter is incremented and the file is served. -/
def download_file (db : Db) (current_user : User) (file_id : Nat) :
    Except AuthError File × Db :=
  match can_access_file db current_user file_id with
  | Except.error e => (Except.error e, db)
  | Except.ok file =>
    let r := increment_download_count db file_id
    (Except.ok file, r.2)

/-- `routers.files.list_files` (`GET /files/`). -/
def list_files (db : Db) (current_user : User) : List File :=
  get_accessible_files db current_user

/-- The names bound at module level in `routers/users.py`: its imports
plus the module-level `router`.  `get_user_by_username` is not among
them — the import from `crud` omits it. -/
def users_module_names : List String :=
  ["APIRouter", "Depends", "HTTPException", "status", "Session", "List",
   "get_db", "get_current_user", "require_role_or_higher", "User",
   "UserRole", "UserCreate", "UserResponse", "UserUpdate",
   "MessageResponse", "create_user", "get_user_by_id",
   "get_users_by_department", "get_all_users", "update_user_role",
   "router"]

/-- `routers.users.create_new_user` (`POST /users/`): the
`require_role_or_higher(MANAGER)` dependency runs first; the body then
calls `get_user_by_username(db, user.username)` — Python resolves that
name in the module namespace at call time, and it is not bound there, so
the call raises `NameError` before anything else happens.  The remainder
of the body (duplicate-username check, MANAGER role ceiling, insertion)
is modelled for completeness but is unreachable. -/
def create_new_user (db : Db) (current_user : User) (user : UserCreate) :
    Except AuthError User × Db :=
  match require_role_or_higher UserRole.MANAGER current_user with
  | Except.error e => (Except.error e, db)
  | Except.ok _ =>
    if users_module_names.contains ("get_user_by_username") then
      match get_user_by_username db user.username with
      | some _ => (Except.error AuthError.badRequestDuplicateUsername, db)
      | none =>
        if current_user.role = UserRole.MANAGER ∧
            user.role ≠ UserRole.USER then
          (Except.error AuthError.forbiddenRoleCeiling, db)
        else
          let r := create_user db user
          (Except.ok r.1, r.2)
    else
      (Except.error AuthError.nameError, db)

/-- `routers.users.get_user_info` (`GET /users/{user_id}`): role floor
(dependency), then lookup (404), then the MANAGER same-department
restriction. -/
def get_user_info (db : Db) (current_user : User) (user_id : Nat) :
    Except AuthError User :=
  match require_role_or_higher UserRole.MANAGER current_user with
  | Except.error e => Except.error e
  | Except.ok _ =>
    match get_user_by_id db user_id with
    | none => Except.error AuthError.notFound
    | some user =>
      if current_user.role = UserRole.MANAGER ∧
          user.department_id ≠ current_user.department_id then
        Except.error AuthError.forbiddenDepartment
      else
        Except.ok user

/-- `routers.users.update_user_role_endpoint`
(`PUT /users/{user_id}/role`): role floor (dependency), lookup (404),
MANAGER department and ceiling restrictions, then the CRUD update (whose
`None` result would be a 500). -/
def update_user_role_endpoint (db : Db) (current_user : User)
    (user_id : Nat) (new_role : UserRole) : Except AuthError User × Db :=
  match require_role_or_higher UserRole.MANAGER current_user with
  | Except.error e => (Except.error e, db)
  | Except.ok _ =>
    match get_user_by_id db user_id with
    | none => (Except.error AuthError.notFound, db)
    | some user =>
      if current_user.role = UserRole.MANAGER ∧
          user.department_id ≠ current_user.department_id then
        (Except.error AuthError.forbiddenDepartment, db)
      else if current_user.role = UserRole.MANAGER ∧
          new_role ≠ UserRole.USER then
        (Except.error AuthError.forbiddenRoleCeiling, db)
      else
        match update_user_role db user_id new_role with
        | (none, db2) => (Except.error AuthError.internalServerError, db2)
        | (some u2, db2) => (Except.ok u2, db2)

/-- `routers.users.list_users` (`GET /users/`): role floor (dependency);
ADMIN sees everyone, otherwise (MANAGER) only the actor's department. -/
def list_users (db : Db) (current_user : User) :
    Except AuthError (List User) :=
  match require_role_or_higher UserRole.MANAGER current_user with
  | Except.error e => Except.error e
  | Except.ok _ =>
    if current_user.role = UserRole.ADMIN then
      Except.ok (get_all_users db)
    else
      Except.ok (get_users_by_department db current_user.department_id)

/-- Spec section 4.1: the role ranking USER=1, MANAGER=2, ADMIN=3. -/
def rank : UserRole → Nat
  | UserRole.USER => 1
  | UserRole.MANAGER => 2
  | UserRole.ADMIN => 3

/-- Spec section 4.1: `meetsFloor(actorRole, requiredRole)`. -/
def meetsFloor (actorRole requiredRole : UserRole) : Bool :=
  rank requiredRole ≤ rank actorRole

/-- Spec section 4.2: the visibility predicate `canView(actor, file)`,
written from the spec's words (first match wins): ADMIN and MANAGER view
everything; USER views PUBLIC files, DEPARTMENT files of the same
department, and own PRIVATE files. -/
def canView (actor : User) (file : File) : Bool :=
  match actor.role with
  | UserRole.ADMIN => true
  | UserRole.MANAGER => true
  | UserRole.USER =>
    decide (file.visibility = FileVisibility.PUBLIC) ||
    (decide (file.visibility = FileVisibility.DEPARTMENT) &&
      decide (file.department_id = actor.department_id)) ||
    (decide (file.visibility = FileVisibility.PRIVATE) &&
      decide (file.owner_id = actor.id))

deriving instance DecidableEq for Except

/-! ## Concrete fixtures used by witnesses and counterexamples -/

/-- A USER-role actor in department 1. -/
def userAlice : User :=
  { id := 1, username := "alice", password_hash := "h1",
    role := UserRole.USER, department_id := 1 }

/-- A MANAGER-role actor in department 1. -/
def userMona : User :=
  { id := 5, username := "mona", password_hash := "h5",
    role := UserRole.MANAGER, department_id := 1 }

/-- An ADMIN-role actor in department 1. -/
def userAda : User :=
  { id := 7, username := "ada", password_hash := "h7",
    role := UserRole.ADMIN, department_id := 1 }

/-- A DEPARTMENT-visibility file of department 1, owned by user 2. -/
def fileDept : File :=
  { id := 10, owner_id := 2, department_id := 1,
    visibility := FileVisibility.DEPARTMENT,
    file_path := "/app/uploads/a.pdf", filename := "a.pdf",
    size := 4, created_at := 0, downloads_count := 3 }

/-- A PRIVATE file of department 2, owned by user 9. -/
def filePriv : File :=
  { id := 11, owner_id := 9, department_id := 2,
    visibility := FileVisibility.PRIVATE,
    file_path := "/app/uploads/b.pdf", filename := "b.pdf",
    size := 6, created_at := 0, downloads_count := 0 }

/-- A small database holding the three actors and the two files. -/
def dbOne : Db :=
  { users := [userAlice, userMona, userAda],
    files := [fileDept, filePriv],
    next_user_id := 8, next_file_id := 12 }

/-- A user-creation payload. -/
def ucNew : UserCreate :=
  { username := "newbie", role := UserRole.USER, department_id := 1,
    password := "pw" }

/-! ## Helper lemmas -/

/-- The per-file decision of `can_access_file` coincides with the spec's
visibility predicate `canView`. -/
theorem file_access_decision_eq (u : User) (f : File) :
    file_access_decision u f =
      if canView u f then Except.ok f
      else Except.error AuthError.forbiddenVisibility := by
  rcases u with ⟨uid, un, ph, role, dept⟩
  rcases f with ⟨fid, own, fdept, vis, path, name, sz, ca, dc⟩
  cases role <;> cases vis <;>
    simp only [file_access_decision, canView] <;>
    split_ifs <;> simp_all

/-- `List.find?` returns the element at index `i` when it satisfies the
predicate and every earlier element does not. -/
theorem find?_eq_get {α : Type} (p : α → Bool) :
    ∀ (l : List α) (i : Nat) (hi : i < l.length),
      p (l.get ⟨i, hi⟩) = true →
      (∀ (j : Nat) (hj : j < l.length), j < i → p (l.get ⟨j, hj⟩) = false) →
      l.find? p = some (l.get ⟨i, hi⟩)
  | [], i, hi, _, _ => absurd hi (Nat.not_lt_zero i)
  | x :: xs, 0, _, hp, _ => by
    have hx : p x = true := by simpa using hp
    simp [List.find?, hx]
  | x :: xs, i + 1, hi, hp, hb => by
    have hx : p x = false := hb 0 (Nat.succ_pos _) (Nat.succ_pos i)
    have ih := find?_eq_get p xs i (Nat.lt_of_succ_lt_succ hi)
      (by simpa using hp)
      (fun j hj hji =>
        by simpa using hb (j + 1) (Nat.succ_lt_succ hj) (Nat.succ_lt_succ hji))
    simp [List.find?, hx, ih]

/-- `updateFirst` rewrites exactly the indexed element when it satisfies
the predicate and every earlier element does not. -/
theorem updateFirst_eq_set {α : Type} (p : α → Bool) (g : α → α) :
    ∀ (l : List α) (i : Nat) (hi : i < l.length),
      p (l.get ⟨i, hi⟩) = true →
      (∀ (j : Nat) (hj : j < l.length), j < i → p (l.get ⟨j, hj⟩) = false) →
      updateFirst p g l = l.set i (g (l.get ⟨i, hi⟩))
  | [], i, hi, _, _ => absurd hi (Nat.not_lt_zero i)
  | x :: xs, 0, _, hp, _ => by
    have hx : p x = true := by simpa using hp
    simp [updateFirst, hx]
  | x :: xs, i + 1, hi, hp, hb => by
    have hx : p x = false := hb 0 (Nat.succ_pos _) (Nat.succ_pos i)
    have ih := updateFirst_eq_set p g xs i (Nat.lt_of_succ_lt_succ hi)
      (by simpa using hp)
      (fun j hj hji =>
        by simpa using hb (j + 1) (Nat.succ_lt_succ hj) (Nat.succ_lt_succ hji))
    simp [updateFirst, hx, ih]

/-! ## The claims -/

/-- C1: `authorizeView` and `authorizeDownload` (both routes run the one
dependency `can_access_file`) decide with the identical predicate: an
absent file yields NotFound; ADMIN and MANAGER are allowed for every
file; a USER actor is allowed iff the file is PUBLIC, or DEPARTMENT in
the actor's department, or PRIVATE and owned by the actor; every other
case denies with Forbidden-Visibility (the predicate `canView`). -/
theorem view_download_identical_predicate (db : Db) (u : User) (fid : Nat) :
    (download_file db u fid).1 = get_file_info db u fid ∧
    (get_file_by_id db fid = none →
      get_file_info db u fid = Except.error AuthError.notFound) ∧
    (∀ f : File, get_file_by_id db fid = some f →
      get_file_info db u fid =
        if canView u f then Except.ok f
        else Except.error AuthError.forbiddenVisibility) := by
  refine ⟨?_, ?_, ?_⟩
  · cases h : can_access_file db u fid <;>
      simp [download_file, get_file_info, h]
  · intro h
    simp [get_file_info, can_access_file, h]
  · intro f h
    simp [get_file_info, can_access_file, h, file_access_decision_eq]

/-- C1 witness: the department file is visible to the department's USER
actor, and the singular and download paths agree on it. -/
theorem view_download_identical_predicate_witness :
    get_file_info dbOne userAlice 10 = Except.ok fileDept ∧
    (download_file dbOne userAlice 10).1 = Except.ok fileDept := by
  have h := view_download_identical_predicate dbOne userAlice 10
  have h2 := h.2.2 fileDept (by decide)
  rw [show canView userAlice fileDept = true from rfl] at h2
  simp at h2
  exact ⟨h2, by rw [h.1, h2]⟩

/-- C2: `can_delete_file` yields NotFound when the file is absent; ADMIN
deletes any file; MANAGER deletes exactly own-department files, denying
with Forbidden-Department otherwise; USER deletes exactly own files,
denying with Forbidden-Ownership otherwise. -/
theorem delete_authorization_by_role (db : Db) (u : User) (fid : Nat) :
    (get_file_by_id db fid = none →
      can_delete_file db u fid = Except.error AuthError.notFound) ∧
    (∀ f : File, get_file_by_id db fid = some f →
      (u.role = UserRole.ADMIN → can_delete_file db u fid = Except.ok f) ∧
      (u.role = UserRole.MANAGER →
        (f.department_id = u.department_id →
          can_delete_file db u fid = Except.ok f) ∧
        (f.department_id ≠ u.department_id →
          can_delete_file db u fid =
            Except.error AuthError.forbiddenDepartment)) ∧
      (u.role = UserRole.USER →
        (f.owner_id = u.id → can_delete_file db u fid = Except.ok f) ∧
        (f.owner_id ≠ u.id →
          can_delete_file db u fid =
            Except.error AuthError.forbiddenOwnership))) := by
  refine ⟨fun h => by simp [can_delete_file, h], fun f h => ⟨?_, ?_, ?_⟩⟩
  · intro hr
    simp [can_delete_file, h, hr]
  · intro hr
    exact ⟨fun hd => by simp [can_delete_file, h, hr, hd],
           fun hd => by simp [can_delete_file, h, hr, hd]⟩
  · intro hr
    exact ⟨fun ho => by simp [can_delete_file, h, hr, ho],
           fun ho => by simp [can_delete_file, h, hr, ho]⟩

/-- C2 witness: the MANAGER of department 1 may not delete the
department-2 private file, and the ADMIN may. -/
theorem delete_authorization_by_role_witness :
    can_delete_file dbOne userMona 11 =
      Except.error AuthError.forbiddenDepartment ∧
    can_delete_file dbOne userAda 11 = Except.ok filePriv := by
  constructor
  · exact (((delete_authorization_by_role dbOne userMona 11).2 filePriv
      (by decide)).2.1 rfl).2 (by decide)
  · exact ((delete_authorization_by_role dbOne userAda 11).2 filePriv
      (by decide)).1 rfl

/-- C3: the bulk listing `get_accessible_files` returns exactly the
order-preserving subsequence of files whose singular access decision
(`file_access_decision`, the body of `can_access_file`) allows; that
decision coincides with the spec predicate `canView`; and ADMIN and
MANAGER actors receive the unfiltered table. -/
theorem accessible_files_match_singular_path (db : Db) (u : User) :
    get_accessible_files db u =
      db.files.filter (fun f => (file_access_decision u f).isOk) ∧
    (∀ f : File, (file_access_decision u f).isOk = canView u f) ∧
    (u.role = UserRole.ADMIN ∨ u.role = UserRole.MANAGER →
      get_accessible_files db u = db.files) := by
  have hok : ∀ f : File, (file_access_decision u f).isOk = canView u f := by
    intro f
    rw [file_access_decision_eq]
    by_cases h : canView u f <;> simp [h, Except.isOk, Except.toBool]
  have hmain : get_accessible_files db u =
      db.files.filter (fun f => (file_access_decision u f).isOk) := by
    cases hr : u.role with
    | ADMIN =>
      simp only [get_accessible_files, hr]
      exact (List.filter_eq_self.mpr (fun f _ => by
        rw [hok f]; simp [canView, hr])).symm
    | MANAGER =>
      simp only [get_accessible_files, hr]
      exact (List.filter_eq_self.mpr (fun f _ => by
        rw [hok f]; simp [canView, hr])).symm
    | USER =>
      simp only [get_accessible_files, hr]
      refine (List.filter_congr (fun f _ => ?_)).symm
      rw [hok f]
      simp [canView, hr]
  refine ⟨hmain, hok, fun h => ?_⟩
  rcases h with h | h <;> simp [get_accessible_files, h]

/-- C3 witness: the department-1 USER actor lists exactly the department
file, matching the singular decision on each file; the MANAGER lists
everything. -/
theorem accessible_files_match_singular_path_witness :
    get_accessible_files dbOne userAlice = [fileDept] ∧
    get_accessible_files dbOne userMona = dbOne.files := by
  constructor
  · rw [(accessible_files_match_singular_path dbOne userAlice).1]
    decide
  · exact (accessible_files_match_singular_path dbOne userMona).2.2
      (Or.inr rfl)

/-- C4: the upload visibility rule (routers/files.py lines 68-73): a
USER actor is authorized iff the requested visibility is PRIVATE, any
other visibility denying with Forbidden-Visibility; MANAGER and ADMIN
actors pass the rule for every visibility value. -/
theorem upload_visibility_rule (u : User) (v : FileVisibility) :
    (u.role = UserRole.USER →
      (upload_visibility_check u v = Except.ok () ↔
        v = FileVisibility.PRIVATE) ∧
      (v ≠ FileVisibility.PRIVATE →
        upload_visibility_check u v =
          Except.error AuthError.forbiddenVisibility)) ∧
    (u.role = UserRole.MANAGER ∨ u.role = UserRole.ADMIN →
      upload_visibility_check u v = Except.ok ()) := by
  constructor
  · intro hr
    constructor
    · by_cases hv : v = FileVisibility.PRIVATE <;>
        simp [upload_visibility_check, hr, hv]
    · intro hv
      simp [upload_visibility_check, hr, hv]
  · intro h
    rcases h with h | h <;> simp [upload_visibility_check, h]

/-- C4 witness: the USER actor is denied a DEPARTMENT upload and allowed
a PRIVATE one; the MANAGER passes with PUBLIC. -/
theorem upload_visibility_rule_witness :
    upload_visibility_check userAlice FileVisibility.DEPARTMENT =
      Except.error AuthError.forbiddenVisibility ∧
    upload_visibility_check userAlice FileVisibility.PRIVATE =
      Except.ok () ∧
    upload_visibility_check userMona FileVisibility.PUBLIC =
      Except.ok () := by
  refine ⟨?_, ?_, ?_⟩
  · exact ((upload_visibility_rule userAlice FileVisibility.DEPARTMENT).1
      rfl).2 (by decide)
  · exact ((upload_visibility_rule userAlice FileVisibility.PRIVATE).1
      rfl).1.mpr rfl
  · exact (upload_visibility_rule userMona FileVisibility.PUBLIC).2
      (Or.inl rfl)


/-- C5: role change (`update_user_role_endpoint`): an ADMIN actor may set
any new role on any existing target user; a MANAGER actor succeeds iff
the target is in the actor's department and the new role is USER; a
department mismatch denies with Forbidden-Department, and a matching
department with a non-USER new role denies with Forbidden-RoleCeiling. -/
theorem change_role_authorization (db : Db) (cu target : User) (uid : Nat)
    (nr : UserRole) (hfind : get_user_by_id db uid = some target) :
    (cu.role = UserRole.ADMIN →
      (update_user_role_endpoint db cu uid nr).1 =
        Except.ok { target with role := nr }) ∧
    (cu.role = UserRole.MANAGER →
      (target.department_id ≠ cu.department_id →
        update_user_role_endpoint db cu uid nr =
          (Except.error AuthError.forbiddenDepartment, db)) ∧
      (target.department_id = cu.department_id → nr ≠ UserRole.USER →
        update_user_role_endpoint db cu uid nr =
          (Except.error AuthError.forbiddenRoleCeiling, db)) ∧
      (target.department_id = cu.department_id → nr = UserRole.USER →
        (update_user_role_endpoint db cu uid nr).1 =
          Except.ok { target with role := nr })) := by
  have hf : db.users.find? (fun v => decide (v.id = uid)) = some target := by
    simpa [get_user_by_id] using hfind
  constructor
  · intro hr
    simp [update_user_role_endpoint, require_role_or_higher, role_hierarchy,
      hr, get_user_by_id, hf, update_user_role]
  · intro hr
    refine ⟨fun hd => ?_, fun hd hnr => ?_, fun hd hnr => ?_⟩
    · simp [update_user_role_endpoint, require_role_or_higher,
        role_hierarchy, hr, get_user_by_id, hf, update_user_role, hd]
    · simp [update_user_role_endpoint, require_role_or_higher,
        role_hierarchy, hr, get_user_by_id, hf, update_user_role, hd, hnr]
    · simp [update_user_role_endpoint, require_role_or_higher,
        role_hierarchy, hr, get_user_by_id, hf, update_user_role, hd, hnr]

/-- C5 witness: the ADMIN promotes the department-1 user to MANAGER; the
MANAGER of the same department cannot grant ADMIN (role ceiling). -/
theorem change_role_authorization_witness :
    (update_user_role_endpoint dbOne userAda 1 UserRole.MANAGER).1 =
      Except.ok { userAlice with role := UserRole.MANAGER } ∧
    update_user_role_endpoint dbOne userMona 1 UserRole.ADMIN =
      (Except.error AuthError.forbiddenRoleCeiling, dbOne) := by
  constructor
  · exact (change_role_authorization dbOne userAda userAlice 1
      UserRole.MANAGER (by decide)).1 rfl
  · exact ((change_role_authorization dbOne userMona userAlice 1
      UserRole.ADMIN (by decide)).2 rfl).2.1 (by decide) (by decide)

/-- C6 counterexample: the claim says a USER-role actor requesting an
absent user record receives NotFound, but the role-floor dependency runs
before the endpoint body ever looks the target up: with no user 42 in
the store, the USER actor receives Forbidden-RoleFloor, not NotFound. -/
theorem notfound_precedence_counterexample :
    get_user_by_id dbOne 42 = none ∧
    get_user_info dbOne userAlice 42 =
      Except.error AuthError.forbiddenRoleFloor ∧
    get_user_info dbOne userAlice 42 ≠ Except.error AuthError.notFound := by
  exact ⟨by decide, by decide, by decide⟩

/-- C6 amended: every deny path carries exactly one reason code.  For
file access and file delete, an absent file yields NotFound before any
role logic, for every actor.  For user view and role change the MANAGER
role floor is a dependency that runs before the target lookup, so a
USER-role actor receives Forbidden-RoleFloor even when the target is
absent; for actors passing the floor, an absent target yields NotFound
before the department and ceiling checks. -/
theorem notfound_precedence_amended (db : Db) (u : User) (fid uid : Nat)
    (nr : UserRole) :
    (get_file_by_id db fid = none →
      can_access_file db u fid = Except.error AuthError.notFound ∧
      can_delete_file db u fid = Except.error AuthError.notFound) ∧
    (u.role ≠ UserRole.USER → get_user_by_id db uid = none →
      get_user_info db u uid = Except.error AuthError.notFound ∧
      update_user_role_endpoint db u uid nr =
        (Except.error AuthError.notFound, db)) ∧
    (u.role = UserRole.USER →
      get_user_info db u uid = Except.error AuthError.forbiddenRoleFloor ∧
      update_user_role_endpoint db u uid nr =
        (Except.error AuthError.forbiddenRoleFloor, db)) := by
  refine ⟨fun h => ⟨?_, ?_⟩, fun hrole hnone => ?_, fun hrole => ?_⟩
  · simp [can_access_file, h]
  · simp [can_delete_file, h]
  · have hfloor : require_role_or_higher UserRole.MANAGER u = Except.ok u := by
      cases hr : u.role with
      | USER => exact absurd hr hrole
      | MANAGER => simp [require_role_or_higher, role_hierarchy, hr]
      | ADMIN => simp [require_role_or_higher, role_hierarchy, hr]
    constructor <;>
      simp [get_user_info, update_user_role_endpoint, hfloor, hnone]
  · constructor <;>
      simp [get_user_info, update_user_role_endpoint, require_role_or_higher,
        role_hierarchy, hrole]

/-- C6 amended witness: an absent file is NotFound for the USER actor,
and an absent user is NotFound for the MANAGER actor (who passes the
floor). -/
theorem notfound_precedence_amended_witness :
    can_access_file dbOne userAlice 99 = Except.error AuthError.notFound ∧
    get_user_info dbOne userMona 42 = Except.error AuthError.notFound := by
  constructor
  · exact ((notfound_precedence_amended dbOne userAlice 99 0
      UserRole.USER).1 (by decide)).1
  · exact ((notfound_precedence_amended dbOne userMona 0 42
      UserRole.USER).2.1 (by decide) (by decide)).1

/-- C7: `require_role_or_higher` computes exactly the spec's
`meetsFloor` (rank USER=1, MANAGER=2, ADMIN=3, allow iff
rank(actor) >= rank(required)); it is a total function with no error
outcome other than the deny decision itself; ADMIN satisfies every
floor; and each user-management operation (create user, view user,
change role, list users) denies a USER-role actor outright with
Forbidden-RoleFloor, leaving the store untouched, before any further
check. -/
theorem role_floor_meets_spec (u : User) (r : UserRole) :
    (require_role_or_higher r u =
      if meetsFloor u.role r then Except.ok u
      else Except.error AuthError.forbiddenRoleFloor) ∧
    (u.role = UserRole.ADMIN → require_role_or_higher r u = Except.ok u) ∧
    (u.role = UserRole.USER →
      ∀ (db : Db) (uc : UserCreate) (uid : Nat) (nr : UserRole),
        create_new_user db u uc =
          (Except.error AuthError.forbiddenRoleFloor, db) ∧
        get_user_info db u uid =
          Except.error AuthError.forbiddenRoleFloor ∧
        update_user_role_endpoint db u uid nr =
          (Except.error AuthError.forbiddenRoleFloor, db) ∧
        list_users db u = Except.error AuthError.forbiddenRoleFloor) := by
  refine ⟨?_, ?_, ?_⟩
  · cases hr : u.role <;> cases r <;>
      simp [require_role_or_higher, role_hierarchy, meetsFloor, rank, hr]
  · intro hr
    cases r <;> simp [require_role_or_higher, role_hierarchy, hr]
  · intro hr db uc uid nr
    refine ⟨?_, ?_, ?_, ?_⟩ <;>
      simp [create_new_user, get_user_info, update_user_role_endpoint,
        list_users, require_role_or_higher, role_hierarchy, hr]

/-- C7 witness: the ADMIN passes the MANAGER floor; the USER actor is
denied user creation with Forbidden-RoleFloor and no user is created. -/
theorem role_floor_meets_spec_witness :
    require_role_or_higher UserRole.MANAGER userAda = Except.ok userAda ∧
    create_new_user dbOne userAlice ucNew =
      (Except.error AuthError.forbiddenRoleFloor, dbOne) := by
  constructor
  · exact (role_floor_meets_spec userAda UserRole.MANAGER).2.1 rfl
  · exact ((role_floor_meets_spec userAlice UserRole.MANAGER).2.2 rfl
      dbOne ucNew 0 UserRole.USER).1

/-- C8: for every actor that passes the MANAGER role floor, the
create-user endpoint fails with an unhandled NameError — the body's
first statement calls `get_user_by_username`, a name not bound in
routers/users.py — before any uniqueness result or role-ceiling check
and before any user is created (the store is returned unchanged). -/
theorem create_user_undefined_name (db : Db) (cu : User) (uc : UserCreate)
    (hfloor : require_role_or_higher UserRole.MANAGER cu = Except.ok cu) :
    create_new_user db cu uc = (Except.error AuthError.nameError, db) := by
  have hname : ("get_user_by_username") ∉ users_module_names := by decide
  simp [create_new_user, hfloor, hname]

/-- C8 witness: the MANAGER actor passes the floor and hits the
NameError; the database is unchanged. -/
theorem create_user_undefined_name_witness :
    create_new_user dbOne userMona ucNew =
      (Except.error AuthError.nameError, dbOne) :=
  create_user_undefined_name dbOne userMona ucNew (by decide)

/-- An upload whose size exceeds the MANAGER limit. -/
def bigPdf : UploadFileIn :=
  { filename := "big.pdf", size := some (50 * 1024 * 1024 + 1),
    content_len := 50 * 1024 * 1024 + 1 }

/-- A small upload within every limit. -/
def okPdf : UploadFileIn :=
  { filename := "r.pdf", size := some 4, content_len := 4 }

/-- C9 counterexample: the claim says every MANAGER/ADMIN upload fails
with the missing-attribute error, but the role-keyed size gate runs
first: an oversized MANAGER upload is rejected with 413
(RequestEntityTooLarge), not with the AttributeError. -/
theorem manager_upload_size_counterexample :
    (upload_file dbOne userMona bigPdf FileVisibility.PUBLIC "u1" 0).1 =
      Except.error AuthError.requestEntityTooLarge ∧
    (upload_file dbOne userMona bigPdf FileVisibility.PUBLIC "u1" 0).1 ≠
      Except.error AuthError.attributeError := by
  exact ⟨by decide, by decide⟩

/-- C9 amended: every MANAGER or ADMIN upload that passes the role-keyed
size gate fails with an unhandled AttributeError — the extension check
reads `settings.ALLOWED_FILE_TYPES_MANAGER` resp.
`settings.ALLOWED_FILE_TYPES_ADMIN`, attributes the Settings class never
defines — and in every case the upload ends before the visibility rule
is evaluated: it never denies with Forbidden-Visibility, never succeeds,
and leaves the store unchanged, so only USER-role uploads can reach the
visibility decision. -/
theorem manager_admin_upload_blocked (db : Db) (cu : User)
    (f : UploadFileIn) (v : FileVisibility) (uuid : String) (now : Nat)
    (hrole : cu.role = UserRole.MANAGER ∨ cu.role = UserRole.ADMIN) :
    (upload_size_rejected settings cu.role f.size = false →
      upload_file db cu f v uuid now =
        (Except.error AuthError.attributeError, db)) ∧
    (upload_file db cu f v uuid now).2 = db ∧
    (upload_file db cu f v uuid now).1 ≠
      Except.error AuthError.forbiddenVisibility ∧
    (∀ r : File, (upload_file db cu f v uuid now).1 ≠ Except.ok r) := by
  have hM : settings.allowed_file_types_attr ("ALLOWED_FILE_TYPES_MANAGER") =
      none := rfl
  have hA : settings.allowed_file_types_attr ("ALLOWED_FILE_TYPES_ADMIN") =
      none := rfl
  have hattr : upload_type_check settings cu.role
      ((splitext_ext f.filename).toLower) =
      Except.error AuthError.attributeError := by
    rcases hrole with h | h <;>
      simp [upload_type_check, h, hM, hA]
  by_cases hs : upload_size_rejected settings cu.role f.size
  · refine ⟨fun hfalse => absurd hs (by simp [hfalse]), ?_, ?_, ?_⟩ <;>
      simp [upload_file, hs]
  · refine ⟨fun _ => ?_, ?_, ?_, ?_⟩ <;>
      simp [upload_file, hs, hattr]

/-- C9 amended witness: an in-limit MANAGER upload of a .pdf hits the
AttributeError and changes nothing. -/
theorem manager_admin_upload_blocked_witness :
    upload_file dbOne userMona okPdf FileVisibility.PUBLIC "u2" 0 =
      (Except.error AuthError.attributeError, dbOne) :=
  (manager_admin_upload_blocked dbOne userMona okPdf FileVisibility.PUBLIC
    "u2" 0 (Or.inl rfl)).1 (by decide)

/-- C10: `increment_download_count` is atomic and frame-preserving:
when no file has the given id it returns False with the store untouched;
when the file at index `i` has the given id (ids being pairwise distinct,
the primary-key invariant), it returns True and the new store differs
from the old only in that one row, whose only changed field is
`downloads_count`, incremented by exactly one. -/
theorem increment_download_count_frame (db : Db) (fid : Nat) :
    ((∀ f : File, f ∈ db.files → f.id ≠ fid) →
      increment_download_count db fid = (false, db)) ∧
    (∀ (i : Nat) (hi : i < db.files.length),
      (db.files.get ⟨i, hi⟩).id = fid →
      db.files.Pairwise (fun a b => a.id ≠ b.id) →
      increment_download_count db fid =
        (true,
         { db with files := (db.files.set i
             { db.files.get ⟨i, hi⟩ with
                 downloads_count :=
                   (db.files.get ⟨i, hi⟩).downloads_count + 1 }) })) := by
  constructor
  · intro h
    have hn : db.files.find? (fun f => decide (f.id = fid)) = none := by
      rw [List.find?_eq_none]
      intro x hx
      simp [h x hx]
    simp [increment_download_count, hn]
  · intro i hi hid hpw
    have hbefore : ∀ (j : Nat) (hj : j < db.files.length), j < i →
        (fun f => decide (f.id = fid)) (db.files.get ⟨j, hj⟩) = false := by
      intro j hj hji
      have hne := List.pairwise_iff_get.mp hpw ⟨j, hj⟩ ⟨i, hi⟩
        (by simpa using hji)
      rw [hid] at hne
      simpa using hne
    have hp : (fun f => decide (f.id = fid)) (db.files.get ⟨i, hi⟩) = true := by
      simpa using hid
    have hfind := find?_eq_get (fun f => decide (f.id = fid)) db.files i hi
      hp hbefore
    have hupd := updateFirst_eq_set (fun f => decide (f.id = fid))
      (fun f => { f with downloads_count := f.downloads_count + 1 })
      db.files i hi hp hbefore
    simp [increment_download_count, hfind, hupd]

/-- C10 witness: incrementing file 11 in the two-file store bumps only
that row's counter (0 to 1) and leaves everything else unchanged. -/
theorem increment_download_count_frame_witness :
    increment_download_count dbOne 11 =
      (true,
       { dbOne with files := ([fileDept,
           { filePriv with downloads_count := 1 }]) }) := by
  have h := (increment_download_count_frame dbOne 11).2 1 (by decide)
    (by decide) (by decide)
  exact h.trans (by decide)
